import Mathlib

/-!
Verification of the Tribeo backend (Node/Express over MongoDB) against its
natural-language specification.  The definitions below are a shallow
embedding of the backend controllers, models and middleware:

  * src/models/User.js            (schema, pre-save bcrypt hook)
  * src/models/FriendRequest.js   (schema)
  * src/controllers/auth.controller.js  (signup, login, onboard,
                                         forgotPassword, resetPassword)
  * src/controllers/user.controller.js  (sendFriendRequest,
                                         acceptFriendRequest, getMyFriends)
  * src/middleware/auth.middleware.js   (protectRoute)
  * src/lib/stream.js                   (generateStreamToken)
  * src/controllers/chat.controller.js  (getStreamToken)

The document store is a list of User and FriendRequest documents; every
controller is a pure function from the store (plus request data and the
external inputs: current time, random salt, random token bytes) to the
updated store and the HTTP response.
-/

namespace Tribeo

abbrev UserId := Nat

abbrev ReqId := Nat

/-- Model of a password-typed string.  bcrypt (an external library) maps a
string to a structurally distinct hash string embedding the cost factor and
the salt; the constructors keep hash output and plaintext distinguishable,
which is exactly the one-way property the code relies on. -/
inductive PwString where
  | raw (s : String)
  | hashed (cost : Nat) (salt : Nat) (p : PwString)
deriving DecidableEq, Repr

/-- Model of bcrypt.hash with a salt generated by bcrypt.genSalt. -/
def bcryptHash (cost : Nat) (salt : Nat) (p : PwString) : PwString :=
  PwString.hashed cost salt p

/-- Model of bcrypt.compare: extracts cost and salt from the stored hash,
re-hashes the entered password and compares.  A stored value that is not a
hash of a plaintext never matches. -/
def bcryptCompare (entered : String) (stored : PwString) : Bool :=
  match stored with
  | PwString.hashed _ _ (PwString.raw p) => p == entered
  | _ => false

/-- Model of crypto.createHash("sha256")...digest("hex") from the external
Node crypto library: an injective stand-in for the hash function. -/
def sha256Hex (s : String) : String := "sha256." ++ s

/-- User document, from the schema in src/models/User.js (the id plays the
role of Mongo _id). -/
structure User where
  id : UserId
  fullName : String
  email : String
  password : PwString
  bio : String
  profilePic : String
  nativeLanguage : String
  learningLanguage : String
  location : String
  isOnboarded : Bool
  friends : List UserId
  passwordResetToken : Option String
  passwordResetExpires : Option Nat
deriving DecidableEq, Repr

/-- userSchema.pre("save") hook from src/models/User.js: when the password
path is modified, hash it with bcrypt at cost factor 10 (bcrypt.genSalt(10));
otherwise the document is saved unchanged. -/
def preSaveHook (isModifiedPassword : Bool) (salt : Nat) (u : User) : User :=
  if isModifiedPassword then
    { u with password := bcryptHash 10 salt u.password }
  else u

/-- Status enum of src/models/FriendRequest.js. -/
inductive RStatus where
  | pending
  | accepted
deriving DecidableEq, Repr

/-- FriendRequest document, from src/models/FriendRequest.js. -/
structure FriendRequest where
  id : ReqId
  sender : UserId
  recipient : UserId
  status : RStatus
deriving DecidableEq, Repr

/-- The document store, plus counters supplying fresh Mongo ids. -/
structure DB where
  users : List User
  requests : List FriendRequest
  nextUserId : UserId
  nextReqId : ReqId
deriving DecidableEq, Repr

/-- HTTP response of a controller: a success JSON body carrying a value, or
an error JSON body carrying the status code and the message string. -/
inductive ApiRes (α : Type) where
  | ok (status : Nat) (value : α)
  | err (status : Nat) (message : String)
deriving DecidableEq, Repr

/-- True when the response is an error response. -/
def ApiRes.isErr {α : Type} : ApiRes α → Bool
  | ApiRes.ok _ _ => false
  | ApiRes.err _ _ => true

/-- Model of Mongoose writing back a document found by id: every document
matching the predicate is passed through the update. -/
def updateWhere {α : Type} (p : α → Bool) (f : α → α) (l : List α) : List α :=
  l.map (fun x => if p x then f x else x)

/-- User.findById. -/
def findUser (db : DB) (uid : UserId) : Option User :=
  db.users.find? (fun u => u.id == uid)

/-- FriendRequest.findById. -/
def findReq (db : DB) (rid : ReqId) : Option FriendRequest :=
  db.requests.find? (fun r => r.id == rid)

/-- Friend list of a user as returned by getMyFriends (the populated
details are elided; the list of friend ids is what the claims are about). -/
def friendsOf (db : DB) (uid : UserId) : List UserId :=
  match findUser db uid with
  | some u => u.friends
  | none => []

/-- Model of the Mongo $addToSet operator: append only when absent. -/
def addToSet (l : List UserId) (x : UserId) : List UserId :=
  if l.contains x then l else l ++ [x]

/-! ### Authentication controllers (src/controllers/auth.controller.js) -/

/-- JavaScript truthiness of an optional request-body string: undefined and
the empty string are falsy. -/
def strMissing : Option String → Bool
  | none => true
  | some s => s == ""

/-- email.toLowerCase().trim(), as done by signup, login, forgotPassword:
every character is lowercased, then whitespace is removed from both ends
(implemented over the character list so that it evaluates). -/
def normalizeEmail (s : String) : String :=
  String.mk
    ((((s.data.map Char.toLower).dropWhile Char.isWhitespace).reverse.dropWhile
      Char.isWhitespace).reverse)

/-- Character class of the signup email regex: anything except whitespace
and the at sign. -/
def isPlainEmailChar (c : Char) : Bool := !c.isWhitespace && c != '@'

/-- Splits a character list at the first occurrence of the given character;
none when the character does not occur. -/
def splitAtFirst (c : Char) : List Char → Option (List Char × List Char)
  | [] => none
  | x :: xs =>
    if x = c then some ([], xs)
    else
      match splitAtFirst c xs with
      | some (l, r) => some (x :: l, r)
      | none => none

/-- True when the list contains a dot followed by at least one more
character. -/
def dotThenMore : List Char → Bool
  | [] => false
  | ['.'] => false
  | '.' :: _ :: _ => true
  | _ :: rest => dotThenMore rest

/-- The signup email pattern check: the local part is one or more
characters that are neither whitespace nor at signs, then a single at sign,
then a domain that likewise has no whitespace or at signs and contains a
dot that is neither its first nor its last character. -/
def emailValid (s : String) : Bool :=
  match splitAtFirst '@' s.data with
  | none => false
  | some (l, r) =>
    !l.isEmpty && l.all isPlainEmailChar && r.all isPlainEmailChar &&
      dotThenMore (r.drop 1)

/-- Avatar URL built by signup from the random index. -/
def avatarUrl (idx : Nat) : String := "https://i.pravatar.cc/150?u=" ++ toString idx

/-- signup from src/controllers/auth.controller.js.  The salt and the
avatar index stand for the external randomness (bcrypt.genSalt(10),
Math.random).  The Stream upsert is fire-and-forget (failures are swallowed)
and the jwt cookie carries no document-store state, so neither affects the
store or the JSON body modelled here. -/
def signup (db : DB) (emailIn passwordIn fullNameIn : Option String)
    (salt : Nat) (avatarIdx : Nat) : DB × ApiRes User :=
  if strMissing emailIn || strMissing passwordIn || strMissing fullNameIn then
    (db, ApiRes.err 400 "All fields are required")
  else
    let email := normalizeEmail (emailIn.getD "")
    let password := passwordIn.getD ""
    let fullName := fullNameIn.getD ""
    if password.length < 6 then
      (db, ApiRes.err 400 "Password must be at least 6 characters")
    else if !emailValid email then
      (db, ApiRes.err 400 "Invalid email format")
    else
      match db.users.find? (fun u => u.email == email) with
      | some _ => (db, ApiRes.err 400 "Email already exists, please use a different one")
      | none =>
        let newUser : User := preSaveHook true salt
          { id := db.nextUserId, fullName := fullName, email := email,
            password := PwString.raw password, bio := "",
            profilePic := avatarUrl avatarIdx, nativeLanguage := "",
            learningLanguage := "", location := "", isOnboarded := false,
            friends := [], passwordResetToken := none,
            passwordResetExpires := none }
        ({ db with users := db.users ++ [newUser], nextUserId := db.nextUserId + 1 },
         ApiRes.ok 201 newUser)

/-- login from src/controllers/auth.controller.js.  The success body is
res.status(200).json with the full user document; the jwt cookie is side
channel state not touched by any claim. -/
def login (db : DB) (emailIn passwordIn : Option String) : ApiRes User :=
  if strMissing emailIn || strMissing passwordIn then
    ApiRes.err 400 "All fields are required"
  else
    let email := normalizeEmail (emailIn.getD "")
    match db.users.find? (fun u => u.email == email) with
    | none => ApiRes.err 401 "Invalid email or password"
    | some user =>
      if bcryptCompare (passwordIn.getD "") user.password then
        ApiRes.ok 200 user
      else ApiRes.err 401 "Invalid email or password"

/-- Request body of the onboarding endpoint.  The controller spreads the
whole req.body into the update, so a password key present in the body would
be written as well (bypassing the pre-save hook); the five profile fields
are the ones it validates. -/
structure OnboardBody where
  fullName : Option String
  bio : Option String
  nativeLanguage : Option String
  learningLanguage : Option String
  location : Option String
  password : Option String
deriving DecidableEq, Repr

/-- The document update performed by User.findByIdAndUpdate in onboard:
spread of req.body plus isOnboarded set to true; no save hook runs. -/
def applyOnboardBody (u : User) (b : OnboardBody) : User :=
  { u with
    fullName := b.fullName.getD u.fullName,
    bio := b.bio.getD u.bio,
    nativeLanguage := b.nativeLanguage.getD u.nativeLanguage,
    learningLanguage := b.learningLanguage.getD u.learningLanguage,
    location := b.location.getD u.location,
    password := match b.password with
      | some p => PwString.raw p
      | none => u.password,
    isOnboarded := true }

/-- onboard from src/controllers/auth.controller.js. -/
def onboard (db : DB) (userId : UserId) (b : OnboardBody) : DB × ApiRes User :=
  if strMissing b.fullName || strMissing b.bio || strMissing b.nativeLanguage ||
      strMissing b.learningLanguage || strMissing b.location then
    (db, ApiRes.err 400 "All fields are required")
  else
    match findUser db userId with
    | none => (db, ApiRes.err 404 "User not found")
    | some u =>
      let updatedUser := applyOnboardBody u b
      ({ db with users := updateWhere (fun v => v.id == userId) (fun _ => updatedUser) db.users },
       ApiRes.ok 200 updatedUser)

/-- forgotPassword from src/controllers/auth.controller.js.  rawToken
stands for the 32 random bytes of crypto.randomBytes; now is Date.now() in
milliseconds.  The save runs the pre-save hook with the password path
unmodified (validateBeforeSave only skips validation, not hooks). -/
def forgotPassword (db : DB) (emailIn : String) (rawToken : String)
    (now : Nat) : DB × ApiRes Unit :=
  let email := normalizeEmail emailIn
  match db.users.find? (fun u => u.email == email) with
  | none => (db, ApiRes.err 404 "User with this email does not exist")
  | some user =>
    let user2 := preSaveHook false 0
      { user with passwordResetToken := some (sha256Hex rawToken),
                  passwordResetExpires := some (now + 10 * 60 * 1000) }
    ({ db with users := updateWhere (fun v => v.id == user.id) (fun _ => user2) db.users },
     ApiRes.ok 200 ())

/-- resetPassword from src/controllers/auth.controller.js.  The lookup is
User.findOne on the token hash with passwordResetExpires strictly greater
than Date.now(); then user.save() runs schema validation before the
user-defined pre-save hook, so the schema's minlength 6 on the password
path is checked against the plaintext newPassword (resetPassword, unlike
forgotPassword, does not pass validateBeforeSave false): a shorter
password throws a ValidationError into the controller's catch, nothing is
persisted and the handler answers 500.  With a valid password the hook
hashes it, the reset fields are cleared and the document is written
once. -/
def resetPassword (db : DB) (token : String) (newPassword : String)
    (now : Nat) (salt : Nat) : DB × ApiRes Unit :=
  let hashedToken := sha256Hex token
  match db.users.find? (fun u =>
      u.passwordResetToken == some hashedToken &&
        (match u.passwordResetExpires with
         | some e => decide (now < e)
         | none => false)) with
  | none => (db, ApiRes.err 400 "Invalid or expired password reset token")
  | some user =>
    if newPassword.length < 6 then
      (db, ApiRes.err 500 "Internal Server Error")
    else
      let user2 := preSaveHook true salt
        { user with password := PwString.raw newPassword,
                    passwordResetToken := none, passwordResetExpires := none }
      ({ db with users := updateWhere (fun v => v.id == user.id) (fun _ => user2) db.users },
       ApiRes.ok 200 ())

/-! ### Session middleware (src/middleware/auth.middleware.js) -/

/-- A signed jwt as issued by jwt.sign with a 7-day expiry. -/
structure SessionToken where
  userId : UserId
  secret : String
  expiresAt : Nat
deriving DecidableEq, Repr

/-- Model of jwt.verify: some payload when the signature matches the server
secret and the token is not expired; none models the library throwing. -/
def jwtVerify (t : SessionToken) (secret : String) (now : Nat) : Option UserId :=
  if t.secret == secret && decide (now < t.expiresAt) then some t.userId else none

/-- The identity view produced by User.findById(...).select("-password"):
every schema field except the password. -/
structure SafeUser where
  id : UserId
  fullName : String
  email : String
  bio : String
  profilePic : String
  nativeLanguage : String
  learningLanguage : String
  location : String
  isOnboarded : Bool
  friends : List UserId
  passwordResetToken : Option String
  passwordResetExpires : Option Nat
deriving DecidableEq, Repr

/-- Projection of a user document with the password excluded. -/
def stripPassword (u : User) : SafeUser :=
  { id := u.id, fullName := u.fullName, email := u.email, bio := u.bio,
    profilePic := u.profilePic, nativeLanguage := u.nativeLanguage,
    learningLanguage := u.learningLanguage, location := u.location,
    isOnboarded := u.isOnboarded, friends := u.friends,
    passwordResetToken := u.passwordResetToken,
    passwordResetExpires := u.passwordResetExpires }

/-- protectRoute from src/middleware/auth.middleware.js.  jwt.verify throws
on an invalid or expired token, which lands in the surrounding catch block
and produces the 500 response; the explicit 401 branch for a falsy decoded
value in the source is unreachable because jwt.verify either returns a
payload object or throws. -/
def protectRoute (db : DB) (secret : String) (now : Nat)
    (cookie : Option SessionToken) : ApiRes SafeUser :=
  match cookie with
  | none => ApiRes.err 401 "Unauthorized - No token provided"
  | some token =>
    match jwtVerify token secret now with
    | none => ApiRes.err 500 "Internal Server Error"
    | some uid =>
      match findUser db uid with
      | none => ApiRes.err 401 "Unauthorized - User not found"
      | some user => ApiRes.ok 200 (stripPassword user)

/-! ### Friend-request controllers (src/controllers/user.controller.js) -/

/-- The FriendRequest.findOne filter of sendFriendRequest: a request
between the two users in either direction. -/
def reqBetween (a b : UserId) (r : FriendRequest) : Bool :=
  (r.sender == a && r.recipient == b) || (r.sender == b && r.recipient == a)

/-- sendFriendRequest from src/controllers/user.controller.js. -/
def sendFriendRequest (db : DB) (myId recipientId : UserId) :
    DB × ApiRes FriendRequest :=
  if myId = recipientId then
    (db, ApiRes.err 400 "You can't send friend request to yourself")
  else
    match findUser db recipientId with
    | none => (db, ApiRes.err 404 "Recipient not found")
    | some recipient =>
      if recipient.friends.contains myId then
        (db, ApiRes.err 400 "You are already friends with this user")
      else
        match db.requests.find? (reqBetween myId recipientId) with
        | some _ =>
          (db, ApiRes.err 400 "A friend request already exists between you and this user")
        | none =>
          let fr : FriendRequest :=
            { id := db.nextReqId, sender := myId, recipient := recipientId,
              status := RStatus.pending }
          ({ db with requests := db.requests ++ [fr], nextReqId := db.nextReqId + 1 },
           ApiRes.ok 201 fr)

/-- acceptFriendRequest from src/controllers/user.controller.js: only the
recipient may accept; on success the request status becomes accepted and
each party is added to the other's friend set with $addToSet. -/
def acceptFriendRequest (db : DB) (requestId : ReqId) (actingUser : UserId) :
    DB × ApiRes Unit :=
  match findReq db requestId with
  | none => (db, ApiRes.err 404 "Friend request not found")
  | some fr =>
    if fr.recipient ≠ actingUser then
      (db, ApiRes.err 403 "You are not authorized to accept this request")
    else
      let db1 := { db with
        requests := updateWhere (fun r => r.id == requestId)
          (fun r => { r with status := RStatus.accepted }) db.requests }
      let db2 := { db1 with
        users := updateWhere (fun u => u.id == fr.sender)
          (fun u => { u with friends := addToSet u.friends fr.recipient }) db1.users }
      let db3 := { db2 with
        users := updateWhere (fun u => u.id == fr.recipient)
          (fun u => { u with friends := addToSet u.friends fr.sender }) db2.users }
      (db3, ApiRes.ok 200 ())

/-! ### Stream delegate (src/lib/stream.js, src/controllers/chat.controller.js) -/

/-- The singleton Stream client: the server secret plus whether a
createToken call currently fails (missing credentials, SDK error). -/
structure StreamClient where
  apiSecret : String
  createTokenFails : Bool
deriving DecidableEq, Repr

/-- Model of streamClient.createToken: a signed token determined by the
server secret and the user id string; none models the SDK throwing. -/
def streamCreateToken (c : StreamClient) (uid : String) : Option String :=
  if c.createTokenFails then none
  else some ("stream." ++ c.apiSecret ++ "." ++ uid)

/-- generateStreamToken from src/lib/stream.js: converts the user id to a
string and calls createToken; the catch block only logs, so on failure the
function falls through and returns undefined (none). -/
def generateStreamToken (c : StreamClient) (userId : UserId) : Option String :=
  match streamCreateToken c (toString userId) with
  | some t => some t
  | none => none

/-- JSON body sent by getStreamToken: the status code and the token field,
which is undefined (none) when generateStreamToken returned undefined. -/
structure TokenResponse where
  status : Nat
  token : Option String
deriving DecidableEq, Repr

/-- getStreamToken from src/controllers/chat.controller.js.  Since
generateStreamToken swallows its errors and never throws, the catch branch
with the 500 response is unreachable and the handler always responds 200. -/
def getStreamToken (c : StreamClient) (userId : UserId) : TokenResponse :=
  { status := 200, token := generateStreamToken c userId }

/-! ### Helper lemmas about the store combinators -/

theorem find?_updateWhere_map {α : Type} (p : α → Bool) (f : α → α)
    (hf : ∀ x, p x = true → p (f x) = true) (l : List α) :
    (updateWhere p f l).find? p = (l.find? p).map f := by
  induction l with
  | nil => rfl
  | cons x xs ih =>
    cases hx : p x with
    | true =>
      simp [updateWhere, List.find?_cons, hx, hf x hx]
    | false =>
      simpa [updateWhere, List.find?_cons, hx] using ih

theorem find?_updateWhere_disjoint {α : Type} (p q : α → Bool) (f : α → α)
    (hpq : ∀ x, q x = true → p x = false)
    (hfq : ∀ x, p x = true → q (f x) = false) (l : List α) :
    (updateWhere p f l).find? q = l.find? q := by
  induction l with
  | nil => rfl
  | cons x xs ih =>
    cases hx : p x with
    | true =>
      have hqx : q x = false := by
        cases h : q x
        · rfl
        · rw [hpq x h] at hx; exact absurd hx (by simp)
      simp [updateWhere, List.find?_cons, hx, hfq x hx, hqx]
      simpa [updateWhere] using ih
    | false =>
      cases hq : q x with
      | true => simp [updateWhere, List.find?_cons, hx, hq]
      | false =>
        simp [updateWhere, List.find?_cons, hx, hq]
        simpa [updateWhere] using ih

theorem find?_updateWhere_fresh {α : Type} (p q : α → Bool) (w : α)
    (l : List α) (hl : ∀ x ∈ l, q x = false) (hw : q w = true)
    (hex : (l.find? p).isSome = true) :
    (updateWhere p (fun _ => w) l).find? q = some w := by
  induction l with
  | nil => simp at hex
  | cons x xs ih =>
    cases hx : p x with
    | true => simp [updateWhere, List.find?_cons, hx, hw]
    | false =>
      have hqx : q x = false := hl x (List.mem_cons_self x xs)
      have hex2 : (xs.find? p).isSome = true := by
        simpa [List.find?_cons, hx] using hex
      have := ih (fun y hy => hl y (List.mem_cons_of_mem x hy)) hex2
      simpa [updateWhere, List.find?_cons, hx, hqx] using this

theorem find?_updateWhere_first {α : Type} (p q : α → Bool) (u w : α)
    (l : List α) (hfind : l.find? q = some u) (hup : p u = true)
    (hwq : q w = true) :
    (updateWhere p (fun _ => w) l).find? q = some w := by
  induction l with
  | nil => simp at hfind
  | cons x xs ih =>
    cases hx : p x with
    | true => simp [updateWhere, List.find?_cons, hx, hwq]
    | false =>
      cases hq : q x with
      | true =>
        have hxu : x = u := by simpa [List.find?_cons, hq] using hfind
        rw [hxu] at hx
        rw [hup] at hx
        exact absurd hx (by simp)
      | false =>
        have hfind2 : xs.find? q = some u := by
          simpa [List.find?_cons, hq] using hfind
        simpa [updateWhere, List.find?_cons, hx, hq] using ih hfind2

theorem mem_updateWhere {α : Type} (p : α → Bool) (f : α → α) (l : List α)
    (y : α) (hy : y ∈ updateWhere p f l) :
    (∃ x, x ∈ l ∧ p x = true ∧ y = f x) ∨ (y ∈ l ∧ p y = false) := by
  obtain ⟨x, hx, hxy⟩ := List.mem_map.mp hy
  cases hp : p x with
  | true =>
    left
    exact ⟨x, hx, hp, by rw [← hxy, hp]; simp⟩
  | false =>
    right
    have : y = x := by rw [← hxy, hp]; simp
    rw [this]
    exact ⟨hx, hp⟩

theorem contains_addToSet (l : List UserId) (x : UserId) :
    (addToSet l x).contains x = true := by
  unfold addToSet
  cases h : l.contains x with
  | true => simp only [if_true]; exact h
  | false => simp

theorem addToSet_addToSet (l : List UserId) (x : UserId) :
    addToSet (addToSet l x) x = addToSet l x := by
  unfold addToSet
  cases h : l.contains x with
  | true =>
    have hm : x ∈ l := List.mem_of_elem_eq_true h
    simp [h, hm]
  | false => simp [h]

/-! ### Concrete fixtures for witnesses and counterexamples -/

/-- A fully onboarded user with a hashed password, for concrete stores. -/
def mkUser (i : UserId) (em : String) (fr : List UserId) : User :=
  { id := i, fullName := "U", email := em,
    password := PwString.hashed 10 0 (PwString.raw "secret1"),
    bio := "b", profilePic := "p", nativeLanguage := "en",
    learningLanguage := "es", location := "l", isOnboarded := true,
    friends := fr, passwordResetToken := none, passwordResetExpires := none }

/-- A store in which user 2 is in user 1's friend set but not conversely:
the one-sided friendship the concurrency section of the spec explicitly
admits (no transaction spans the two friend-list updates). -/
def dbOneSided : DB :=
  { users := [mkUser 1 "a@x.com" [2], mkUser 2 "b@x.com" []],
    requests := [], nextUserId := 3, nextReqId := 0 }

/-- The store dbOneSided after the send from user 1 to user 2. -/
def dbOneSidedAfter : DB := (sendFriendRequest dbOneSided 1 2).1

/-- A store with three users and one pending request from 1 to 2. -/
def dbReq : DB :=
  { users := [mkUser 1 "a@x.com" [], mkUser 2 "b@x.com" [], mkUser 3 "c@x.com" []],
    requests := [{ id := 0, sender := 1, recipient := 2, status := RStatus.pending }],
    nextUserId := 4, nextReqId := 1 }

/-! ### Claim C1 -/

/-- Any call that finds a matching FriendRequest document between the pair
already in the store is rejected (together with every other guard branch,
the response is an error). -/
theorem send_isErr_of_req (db : DB) (a b : UserId)
    (h : ∃ r, r ∈ db.requests ∧ reqBetween a b r = true) :
    (sendFriendRequest db a b).2.isErr = true := by
  unfold sendFriendRequest
  by_cases hab : a = b
  · simp [hab, ApiRes.isErr]
  · cases hB : findUser db b with
    | none => simp [hab, hB, ApiRes.isErr]
    | some uB =>
      cases hcont : uB.friends.contains a with
      | true =>
        have hm : a ∈ uB.friends := List.mem_of_elem_eq_true hcont
        simp [hab, hB, hm, ApiRes.isErr]
      | false =>
        have hm : a ∉ uB.friends := by simpa using hcont
        cases hex : db.requests.find? (reqBetween a b) with
        | none =>
          exfalso
          obtain ⟨r, hr, hrb⟩ := h
          exact (List.find?_eq_none.mp hex r hr) hrb
        | some r => simp [hab, hB, hm, hex, ApiRes.isErr]

/-- C1 counterexample: in dbOneSided the recipient (user 2) is already in
the sender's (user 1) friend set, yet sendFriendRequest succeeds with 201
and creates a FriendRequest document, because the source checks
recipient.friends for the sender, not sender.friends for the recipient. -/
theorem C1_counterexample :
    (friendsOf dbOneSided 1).contains 2 = true ∧
    (sendFriendRequest dbOneSided 1 2).2 =
      ApiRes.ok 201 { id := 0, sender := 1, recipient := 2, status := RStatus.pending } ∧
    (sendFriendRequest dbOneSided 1 2).1.requests =
      [{ id := 0, sender := 1, recipient := 2, status := RStatus.pending }] := by
  decide

/-- C1 as amended: sendFriendRequest rejects the call and leaves the store
unchanged when the sender equals the recipient, when the recipient does not
exist, when the sender is already in the recipient's friend set, or when a
FriendRequest already exists between the pair in either direction; and
after a successful SendRequest(A,B), the subsequent SendRequest(B,A) is
rejected. -/
theorem C1_sendRequest_guards (db : DB) (A B : UserId) :
    (A = B → sendFriendRequest db A B =
      (db, ApiRes.err 400 "You can't send friend request to yourself")) ∧
    (A ≠ B → findUser db B = none → sendFriendRequest db A B =
      (db, ApiRes.err 404 "Recipient not found")) ∧
    (∀ uB, A ≠ B → findUser db B = some uB → uB.friends.contains A = true →
      sendFriendRequest db A B =
        (db, ApiRes.err 400 "You are already friends with this user")) ∧
    (∀ uB r, A ≠ B → findUser db B = some uB → uB.friends.contains A = false →
      db.requests.find? (reqBetween A B) = some r →
      sendFriendRequest db A B =
        (db, ApiRes.err 400 "A friend request already exists between you and this user")) ∧
    (∀ db2 fr, sendFriendRequest db A B = (db2, ApiRes.ok 201 fr) →
      (sendFriendRequest db2 B A).2.isErr = true) := by
  refine ⟨?_, ?_, ?_, ?_, ?_⟩
  · intro h
    simp [sendFriendRequest, h]
  · intro hAB hB
    simp [sendFriendRequest, hAB, hB]
  · intro uB hAB hB hcont
    have hm : A ∈ uB.friends := List.mem_of_elem_eq_true hcont
    simp [sendFriendRequest, hAB, hB, hm]
  · intro uB r hAB hB hcont hex
    have hm : A ∉ uB.friends := by simpa using hcont
    simp [sendFriendRequest, hAB, hB, hm, hex]
  · intro db2 fr hsucc
    by_cases hAB : A = B
    · simp [sendFriendRequest, hAB] at hsucc
    · cases hB : findUser db B with
      | none => simp [sendFriendRequest, hAB, hB] at hsucc
      | some uB =>
        cases hcont : uB.friends.contains A with
        | true =>
          have hm : A ∈ uB.friends := List.mem_of_elem_eq_true hcont
          simp [sendFriendRequest, hAB, hB, hm] at hsucc
        | false =>
          have hm : A ∉ uB.friends := by simpa using hcont
          cases hex : db.requests.find? (reqBetween A B) with
          | some r => simp [sendFriendRequest, hAB, hB, hm, hex] at hsucc
          | none =>
            have hinv : db2 = { db with
                requests := db.requests ++
                  [{ id := db.nextReqId, sender := A, recipient := B,
                     status := RStatus.pending }],
                nextReqId := db.nextReqId + 1 } := by
              simp only [sendFriendRequest, hB, hcont, hex, if_neg hAB,
                Bool.false_eq_true, if_false] at hsucc
              rw [Prod.mk.injEq] at hsucc
              exact hsucc.1.symm
            rw [hinv]
            apply send_isErr_of_req
            refine ⟨{ id := db.nextReqId, sender := A, recipient := B,
                      status := RStatus.pending }, ?_, ?_⟩
            · simp
            · simp [reqBetween]

/-- C1 witness: the guards evaluated on the concrete one-sided store. -/
theorem C1_sendRequest_guards_witness :
    sendFriendRequest dbOneSided 1 1 =
      (dbOneSided, ApiRes.err 400 "You can't send friend request to yourself") ∧
    sendFriendRequest dbOneSided 1 5 =
      (dbOneSided, ApiRes.err 404 "Recipient not found") ∧
    sendFriendRequest dbOneSided 2 1 =
      (dbOneSided, ApiRes.err 400 "You are already friends with this user") ∧
    (sendFriendRequest dbOneSidedAfter 2 1).2.isErr = true := by
  refine ⟨(C1_sendRequest_guards dbOneSided 1 1).1 rfl,
          (C1_sendRequest_guards dbOneSided 1 5).2.1 (by decide) (by decide),
          (C1_sendRequest_guards dbOneSided 2 1).2.2.1
            (mkUser 1 "a@x.com" [2]) (by decide) (by decide) (by decide),
          (C1_sendRequest_guards dbOneSided 1 2).2.2.2.2 dbOneSidedAfter
            { id := 0, sender := 1, recipient := 2, status := RStatus.pending }
            (by decide)⟩

/-! ### Claim C2 -/

/-- C2: acceptRequest by an acting user other than the recipient of the
referenced pending request fails with the 403 authorization error and
returns the store unchanged, so the request status stays pending and no
friend set changes. -/
theorem C2_accept_unauthorized (db : DB) (rid : ReqId) (acting : UserId)
    (fr : FriendRequest) (hfind : findReq db rid = some fr)
    (hpend : fr.status = RStatus.pending) (hne : acting ≠ fr.recipient) :
    acceptFriendRequest db rid acting =
      (db, ApiRes.err 403 "You are not authorized to accept this request") := by
  simp [acceptFriendRequest, hfind, Ne.symm hne]

/-- C2 witness: user 3 cannot accept the pending request from 1 to 2. -/
theorem C2_accept_unauthorized_witness :
    findReq dbReq 0 = some { id := 0, sender := 1, recipient := 2, status := RStatus.pending } ∧
    acceptFriendRequest dbReq 0 3 =
      (dbReq, ApiRes.err 403 "You are not authorized to accept this request") :=
  ⟨by decide,
   C2_accept_unauthorized dbReq 0 3
     { id := 0, sender := 1, recipient := 2, status := RStatus.pending }
     (by decide) rfl (by decide)⟩

/-! ### Claim C3 -/

/-- Shape of a successful accept: the acting user is the recipient, the
request status is flipped to accepted, and each party is added to the
other's friend set. -/
theorem accept_success_eq (db : DB) (rid : ReqId) (fr : FriendRequest)
    (hfind : findReq db rid = some fr) :
    acceptFriendRequest db rid fr.recipient =
      ({ users := updateWhere (fun u => u.id == fr.recipient)
            (fun u => { u with friends := addToSet u.friends fr.sender })
            (updateWhere (fun u => u.id == fr.sender)
              (fun u => { u with friends := addToSet u.friends fr.recipient })
              db.users),
         requests := updateWhere (fun r => r.id == rid)
            (fun r => { r with status := RStatus.accepted }) db.requests,
         nextUserId := db.nextUserId, nextReqId := db.nextReqId },
       ApiRes.ok 200 ()) := by
  simp [acceptFriendRequest, hfind]

/-- C3: after a successful accept of the pending request from A to B by
the recipient B, the response is the success response, the request status
is accepted, B is in A's friend set, A is in B's friend set; and the
repeated accept of the same request succeeds again while leaving both
friend sets unchanged (the $addToSet add is idempotent). -/
theorem C3_accept_success (db : DB) (rid : ReqId) (A B : UserId)
    (fr : FriendRequest) (uA uB : User)
    (hfind : findReq db rid = some fr)
    (hs : fr.sender = A) (hr : fr.recipient = B) (hAB : A ≠ B)
    (hA : findUser db A = some uA) (hB : findUser db B = some uB) :
    (acceptFriendRequest db rid B).2 = ApiRes.ok 200 () ∧
    findReq (acceptFriendRequest db rid B).1 rid =
      some { fr with status := RStatus.accepted } ∧
    (friendsOf (acceptFriendRequest db rid B).1 A).contains B = true ∧
    (friendsOf (acceptFriendRequest db rid B).1 B).contains A = true ∧
    (acceptFriendRequest (acceptFriendRequest db rid B).1 rid B).2 =
      ApiRes.ok 200 () ∧
    friendsOf (acceptFriendRequest (acceptFriendRequest db rid B).1 rid B).1 A =
      friendsOf (acceptFriendRequest db rid B).1 A ∧
    friendsOf (acceptFriendRequest (acceptFriendRequest db rid B).1 rid B).1 B =
      friendsOf (acceptFriendRequest db rid B).1 B := by
  have hacc := accept_success_eq db rid fr hfind
  rw [hs, hr] at hacc
  have hUsers : (acceptFriendRequest db rid B).1.users =
      updateWhere (fun u => u.id == B)
        (fun u => { u with friends := addToSet u.friends A })
        (updateWhere (fun u => u.id == A)
          (fun u => { u with friends := addToSet u.friends B }) db.users) := by
    rw [hacc]
  have hReqs : (acceptFriendRequest db rid B).1.requests =
      updateWhere (fun r => r.id == rid)
        (fun r => { r with status := RStatus.accepted }) db.requests := by
    rw [hacc]
  have hqA : ∀ x : User, (x.id == A) = true → (x.id == B) = false := by
    intro x hx
    have hxA : x.id = A := by simpa using hx
    rw [hxA]
    exact beq_eq_false_iff_ne.mpr hAB
  have hqB : ∀ x : User, (x.id == B) = true → (x.id == A) = false := by
    intro x hx
    have hxB : x.id = B := by simpa using hx
    rw [hxB]
    exact beq_eq_false_iff_ne.mpr (Ne.symm hAB)
  have hfA2 : db.users.find? (fun u => u.id == A) = some uA := hA
  have hfB2 : db.users.find? (fun u => u.id == B) = some uB := hB
  have hfind2 : db.requests.find? (fun r => r.id == rid) = some fr := hfind
  have hfind3 : findReq (acceptFriendRequest db rid B).1 rid =
      some { fr with status := RStatus.accepted } := by
    show (acceptFriendRequest db rid B).1.requests.find? (fun r => r.id == rid) = _
    rw [hReqs,
      find?_updateWhere_map (fun r => r.id == rid)
        (fun r => { r with status := RStatus.accepted }) (fun x hx => hx)
        db.requests,
      hfind2]
    rfl
  have hfindA3 : findUser (acceptFriendRequest db rid B).1 A =
      some { uA with friends := addToSet uA.friends B } := by
    show (acceptFriendRequest db rid B).1.users.find? (fun u => u.id == A) = _
    rw [hUsers,
      find?_updateWhere_disjoint (fun u => u.id == B) (fun u => u.id == A)
        (fun u => { u with friends := addToSet u.friends A })
        hqA (fun x hx => hqB x hx)
        (updateWhere (fun u => u.id == A)
          (fun u => { u with friends := addToSet u.friends B }) db.users),
      find?_updateWhere_map (fun u => u.id == A)
        (fun u => { u with friends := addToSet u.friends B }) (fun x hx => hx)
        db.users,
      hfA2]
    rfl
  have hfindB3 : findUser (acceptFriendRequest db rid B).1 B =
      some { uB with friends := addToSet uB.friends A } := by
    show (acceptFriendRequest db rid B).1.users.find? (fun u => u.id == B) = _
    rw [hUsers,
      find?_updateWhere_map (fun u => u.id == B)
        (fun u => { u with friends := addToSet u.friends A }) (fun x hx => hx)
        (updateWhere (fun u => u.id == A)
          (fun u => { u with friends := addToSet u.friends B }) db.users),
      find?_updateWhere_disjoint (fun u => u.id == A) (fun u => u.id == B)
        (fun u => { u with friends := addToSet u.friends B })
        hqB (fun x hx => hqA x hx) db.users,
      hfB2]
    rfl
  have h3 : (friendsOf (acceptFriendRequest db rid B).1 A).contains B = true := by
    simpa [friendsOf, hfindA3] using contains_addToSet uA.friends B
  have h4 : (friendsOf (acceptFriendRequest db rid B).1 B).contains A = true := by
    simpa [friendsOf, hfindB3] using contains_addToSet uB.friends A
  have hacc2 := accept_success_eq (acceptFriendRequest db rid B).1 rid
      { fr with status := RStatus.accepted } hfind3
  have hrec : ({ fr with status := RStatus.accepted } : FriendRequest).recipient = B := hr
  have hsen : ({ fr with status := RStatus.accepted } : FriendRequest).sender = A := hs
  rw [hrec, hsen] at hacc2
  have hUsers2 : (acceptFriendRequest (acceptFriendRequest db rid B).1 rid B).1.users =
      updateWhere (fun u => u.id == B)
        (fun u => { u with friends := addToSet u.friends A })
        (updateWhere (fun u => u.id == A)
          (fun u => { u with friends := addToSet u.friends B })
          (acceptFriendRequest db rid B).1.users) := by
    rw [hacc2]
  have hfindA3v : (acceptFriendRequest db rid B).1.users.find? (fun u => u.id == A) =
      some { uA with friends := addToSet uA.friends B } := hfindA3
  have hfindB3v : (acceptFriendRequest db rid B).1.users.find? (fun u => u.id == B) =
      some { uB with friends := addToSet uB.friends A } := hfindB3
  have hfindA6 : findUser (acceptFriendRequest (acceptFriendRequest db rid B).1 rid B).1 A =
      some { uA with friends := addToSet (addToSet uA.friends B) B } := by
    show (acceptFriendRequest (acceptFriendRequest db rid B).1 rid B).1.users.find?
        (fun u => u.id == A) = _
    rw [hUsers2,
      find?_updateWhere_disjoint (fun u => u.id == B) (fun u => u.id == A)
        (fun u => { u with friends := addToSet u.friends A })
        hqA (fun x hx => hqB x hx)
        (updateWhere (fun u => u.id == A)
          (fun u => { u with friends := addToSet u.friends B })
          (acceptFriendRequest db rid B).1.users),
      find?_updateWhere_map (fun u => u.id == A)
        (fun u => { u with friends := addToSet u.friends B }) (fun x hx => hx)
        (acceptFriendRequest db rid B).1.users,
      hfindA3v]
    rfl
  have hfindB6 : findUser (acceptFriendRequest (acceptFriendRequest db rid B).1 rid B).1 B =
      some { uB with friends := addToSet (addToSet uB.friends A) A } := by
    show (acceptFriendRequest (acceptFriendRequest db rid B).1 rid B).1.users.find?
        (fun u => u.id == B) = _
    rw [hUsers2,
      find?_updateWhere_map (fun u => u.id == B)
        (fun u => { u with friends := addToSet u.friends A }) (fun x hx => hx)
        (updateWhere (fun u => u.id == A)
          (fun u => { u with friends := addToSet u.friends B })
          (acceptFriendRequest db rid B).1.users),
      find?_updateWhere_disjoint (fun u => u.id == A) (fun u => u.id == B)
        (fun u => { u with friends := addToSet u.friends B })
        hqB (fun x hx => hqA x hx) (acceptFriendRequest db rid B).1.users,
      hfindB3v]
    rfl
  have h6 : friendsOf (acceptFriendRequest (acceptFriendRequest db rid B).1 rid B).1 A =
      friendsOf (acceptFriendRequest db rid B).1 A := by
    simp [friendsOf, hfindA6, hfindA3, addToSet_addToSet]
  have h7 : friendsOf (acceptFriendRequest (acceptFriendRequest db rid B).1 rid B).1 B =
      friendsOf (acceptFriendRequest db rid B).1 B := by
    simp [friendsOf, hfindB6, hfindB3, addToSet_addToSet]
  exact ⟨by rw [hacc], hfind3, h3, h4, by rw [hacc2], h6, h7⟩

/-- C3 witness: user 2 accepts request 0 from user 1 in the concrete
store; both friend sets gain the other user. -/
theorem C3_accept_success_witness :
    (acceptFriendRequest dbReq 0 2).2 = ApiRes.ok 200 () ∧
    (friendsOf (acceptFriendRequest dbReq 0 2).1 1).contains 2 = true ∧
    (friendsOf (acceptFriendRequest dbReq 0 2).1 2).contains 1 = true ∧
    friendsOf (acceptFriendRequest (acceptFriendRequest dbReq 0 2).1 0 2).1 1 =
      friendsOf (acceptFriendRequest dbReq 0 2).1 1 := by
  have h := C3_accept_success dbReq 0 1 2
    { id := 0, sender := 1, recipient := 2, status := RStatus.pending }
    (mkUser 1 "a@x.com" []) (mkUser 2 "b@x.com" [])
    (by decide) rfl rfl (by decide) (by decide) (by decide)
  exact ⟨h.1, h.2.2.1, h.2.2.2.1, h.2.2.2.2.2.1⟩

/-! ### Claim C4 -/

/-- A store holding a single registered user, for concrete witnesses. -/
def dbSingle : DB :=
  { users := [mkUser 1 "a@x.com" []], requests := [], nextUserId := 2, nextReqId := 0 }

/-- When no stored record matches the presented token hash unexpired, the
reset endpoint answers with the 400 validation error and leaves the store
unchanged. -/
theorem resetPassword_err_of_none (db : DB) (token newPassword : String)
    (now salt : Nat)
    (h : db.users.find? (fun v =>
        v.passwordResetToken == some (sha256Hex token) &&
        (match v.passwordResetExpires with
         | some e => decide (now < e)
         | none => false)) = none) :
    resetPassword db token newPassword now salt =
      (db, ApiRes.err 400 "Invalid or expired password reset token") := by
  simp [resetPassword, h]

/-- Shape of a successful issue: the found user document is rewritten with
the token hash and the ten-minute expiry; nothing else changes. -/
theorem forgotPassword_found_eq (db : DB) (emailIn rawToken : String)
    (now : Nat) (user : User)
    (hfind : db.users.find? (fun v => v.email == normalizeEmail emailIn) = some user) :
    forgotPassword db emailIn rawToken now =
      ({ db with users :=
                   updateWhere (fun v => v.id == user.id)
                     (fun _ => { user with
                       passwordResetToken := some (sha256Hex rawToken),
                       passwordResetExpires := some (now + 10 * 60 * 1000) })
                     db.users }, ApiRes.ok 200 ()) := by
  simp [forgotPassword, hfind, preSaveHook]

/-- Shape of a successful consume of a valid new password: the found user
document is rewritten in one write with the bcrypt hash of the new password
and cleared reset fields. -/
theorem resetPassword_found_eq (db : DB) (token newPassword : String)
    (now salt : Nat) (user : User)
    (hlen : ¬ newPassword.length < 6)
    (hfind : db.users.find? (fun v =>
        v.passwordResetToken == some (sha256Hex token) &&
        (match v.passwordResetExpires with
         | some e => decide (now < e)
         | none => false)) = some user) :
    resetPassword db token newPassword now salt =
      ({ db with users :=
                   updateWhere (fun v => v.id == user.id)
                     (fun _ => { user with
                       password := PwString.hashed 10 salt (PwString.raw newPassword),
                       passwordResetToken := none,
                       passwordResetExpires := none })
                     db.users }, ApiRes.ok 200 ()) := by
  simp [resetPassword, hfind, preSaveHook, bcryptHash, hlen]

/-- C4: a reset token issued by forgotPassword is stored as its hash with a
ten-minute expiry; resetPassword accepts it together with a valid (at
least six character) new password while strictly less than ten minutes
old, replacing the password hash and clearing both reset fields in the
same write; it rejects it with the 400 validation error once expired and
rejects a second consumption of the same token; a new password shorter
than six characters fails schema validation inside save, answering 500
and leaving the token live; and reissuing overwrites the stored token so
at most one live reset token exists for the user. -/
theorem C4_reset_token_lifecycle (db : DB)
    (emailIn rawToken rawToken2 newPw shortPw : String)
    (t0 t1 now1 now2 salt : Nat) (u : User)
    (hfind : db.users.find? (fun v => v.email == normalizeEmail emailIn) = some u)
    (hid : db.users.find? (fun v => v.id == u.id) = some u)
    (hfresh : ∀ v ∈ db.users, v.passwordResetToken ≠ some (sha256Hex rawToken))
    (hnow1 : now1 < t0 + 10 * 60 * 1000)
    (hnow2 : t0 + 10 * 60 * 1000 ≤ now2)
    (hlen : ¬ newPw.length < 6)
    (hshort : shortPw.length < 6) :
    (forgotPassword db emailIn rawToken t0).2 = ApiRes.ok 200 () ∧
    findUser (forgotPassword db emailIn rawToken t0).1 u.id =
      some { u with passwordResetToken := some (sha256Hex rawToken),
                    passwordResetExpires := some (t0 + 10 * 60 * 1000) } ∧
    (resetPassword (forgotPassword db emailIn rawToken t0).1 rawToken newPw now1 salt).2 =
      ApiRes.ok 200 () ∧
    findUser (resetPassword (forgotPassword db emailIn rawToken t0).1
        rawToken newPw now1 salt).1 u.id =
      some { u with password := PwString.hashed 10 salt (PwString.raw newPw),
                    passwordResetToken := none, passwordResetExpires := none } ∧
    (resetPassword (forgotPassword db emailIn rawToken t0).1 rawToken newPw now2 salt).2 =
      ApiRes.err 400 "Invalid or expired password reset token" ∧
    (resetPassword (resetPassword (forgotPassword db emailIn rawToken t0).1
        rawToken newPw now1 salt).1 rawToken newPw now1 salt).2 =
      ApiRes.err 400 "Invalid or expired password reset token" ∧
    resetPassword (forgotPassword db emailIn rawToken t0).1
        rawToken shortPw now1 salt =
      ((forgotPassword db emailIn rawToken t0).1,
       ApiRes.err 500 "Internal Server Error") ∧
    findUser (forgotPassword (forgotPassword db emailIn rawToken t0).1
        emailIn rawToken2 t1).1 u.id =
      some { u with passwordResetToken := some (sha256Hex rawToken2),
                    passwordResetExpires := some (t1 + 10 * 60 * 1000) } := by
  have hfw := forgotPassword_found_eq db emailIn rawToken t0 u hfind
  have husers1 : (forgotPassword db emailIn rawToken t0).1.users =
      updateWhere (fun v => v.id == u.id)
        (fun _ => { u with passwordResetToken := some (sha256Hex rawToken),
                           passwordResetExpires := some (t0 + 10 * 60 * 1000) })
        db.users := by
    rw [hfw]
  have h2 : findUser (forgotPassword db emailIn rawToken t0).1 u.id =
      some { u with passwordResetToken := some (sha256Hex rawToken),
                    passwordResetExpires := some (t0 + 10 * 60 * 1000) } := by
    show (forgotPassword db emailIn rawToken t0).1.users.find? (fun v => v.id == u.id) = _
    rw [husers1,
      find?_updateWhere_map (fun v => v.id == u.id)
        (fun _ => { u with passwordResetToken := some (sha256Hex rawToken),
                           passwordResetExpires := some (t0 + 10 * 60 * 1000) })
        (fun x hx => beq_self_eq_true u.id) db.users,
      hid]
    rfl
  have h2v : (forgotPassword db emailIn rawToken t0).1.users.find?
      (fun v => v.id == u.id) =
      some { u with passwordResetToken := some (sha256Hex rawToken),
                    passwordResetExpires := some (t0 + 10 * 60 * 1000) } := h2
  have hfindTok : (forgotPassword db emailIn rawToken t0).1.users.find?
      (fun v => v.passwordResetToken == some (sha256Hex rawToken) &&
        (match v.passwordResetExpires with
         | some e => decide (now1 < e)
         | none => false)) =
      some { u with passwordResetToken := some (sha256Hex rawToken),
                    passwordResetExpires := some (t0 + 10 * 60 * 1000) } := by
    rw [husers1]
    apply find?_updateWhere_fresh
    · intro v hv
      rw [show (v.passwordResetToken == some (sha256Hex rawToken)) = false from
        beq_eq_false_iff_ne.mpr (hfresh v hv), Bool.false_and]
    · simpa using hnow1
    · rw [hid]
      rfl
  have hrp := resetPassword_found_eq (forgotPassword db emailIn rawToken t0).1
    rawToken newPw now1 salt
    { u with passwordResetToken := some (sha256Hex rawToken),
             passwordResetExpires := some (t0 + 10 * 60 * 1000) } hlen hfindTok
  have husers2 : (resetPassword (forgotPassword db emailIn rawToken t0).1
      rawToken newPw now1 salt).1.users =
      updateWhere (fun v => v.id == u.id)
        (fun _ => { u with password := PwString.hashed 10 salt (PwString.raw newPw),
                           passwordResetToken := none,
                           passwordResetExpires := none })
        (forgotPassword db emailIn rawToken t0).1.users := by
    rw [hrp]
  have h4 : findUser (resetPassword (forgotPassword db emailIn rawToken t0).1
      rawToken newPw now1 salt).1 u.id =
      some { u with password := PwString.hashed 10 salt (PwString.raw newPw),
                    passwordResetToken := none, passwordResetExpires := none } := by
    show (resetPassword (forgotPassword db emailIn rawToken t0).1
        rawToken newPw now1 salt).1.users.find? (fun v => v.id == u.id) = _
    rw [husers2,
      find?_updateWhere_map (fun v => v.id == u.id)
        (fun _ => { u with password := PwString.hashed 10 salt (PwString.raw newPw),
                           passwordResetToken := none,
                           passwordResetExpires := none })
        (fun x hx => beq_self_eq_true u.id)
        (forgotPassword db emailIn rawToken t0).1.users,
      h2v]
    rfl
  have hnone2 : (forgotPassword db emailIn rawToken t0).1.users.find?
      (fun v => v.passwordResetToken == some (sha256Hex rawToken) &&
        (match v.passwordResetExpires with
         | some e => decide (now2 < e)
         | none => false)) = none := by
    rw [husers1]
    apply List.find?_eq_none.mpr
    intro v hv
    rcases mem_updateWhere _ _ _ _ hv with ⟨x, hx, hpx, hveq⟩ | ⟨hvmem, hpv⟩
    · rw [hveq]
      simp [Nat.not_lt.mpr hnow2]
    · intro hcontra
      rw [show (v.passwordResetToken == some (sha256Hex rawToken)) = false from
        beq_eq_false_iff_ne.mpr (hfresh v hvmem), Bool.false_and] at hcontra
      exact absurd hcontra (by simp)
  have h5 : (resetPassword (forgotPassword db emailIn rawToken t0).1
      rawToken newPw now2 salt).2 =
      ApiRes.err 400 "Invalid or expired password reset token" := by
    rw [resetPassword_err_of_none (forgotPassword db emailIn rawToken t0).1
      rawToken newPw now2 salt hnone2]
  have hnone3 : (resetPassword (forgotPassword db emailIn rawToken t0).1
      rawToken newPw now1 salt).1.users.find?
      (fun v => v.passwordResetToken == some (sha256Hex rawToken) &&
        (match v.passwordResetExpires with
         | some e => decide (now1 < e)
         | none => false)) = none := by
    rw [husers2]
    apply List.find?_eq_none.mpr
    intro v hv
    rcases mem_updateWhere _ _ _ _ hv with ⟨x, hx, hpx, hveq⟩ | ⟨hvmem, hpv⟩
    · rw [hveq]
      simp
    · rw [husers1] at hvmem
      rcases mem_updateWhere _ _ _ _ hvmem with ⟨x2, hx2, hpx2, hveq2⟩ | ⟨hvmem2, hpv2⟩
      · exfalso
        rw [hveq2] at hpv
        simp at hpv
      · intro hcontra
        rw [show (v.passwordResetToken == some (sha256Hex rawToken)) = false from
          beq_eq_false_iff_ne.mpr (hfresh v hvmem2), Bool.false_and] at hcontra
        exact absurd hcontra (by simp)
  have h6 : (resetPassword (resetPassword (forgotPassword db emailIn rawToken t0).1
      rawToken newPw now1 salt).1 rawToken newPw now1 salt).2 =
      ApiRes.err 400 "Invalid or expired password reset token" := by
    rw [resetPassword_err_of_none (resetPassword (forgotPassword db emailIn rawToken t0).1
      rawToken newPw now1 salt).1 rawToken newPw now1 salt hnone3]
  have h8 : resetPassword (forgotPassword db emailIn rawToken t0).1
      rawToken shortPw now1 salt =
      ((forgotPassword db emailIn rawToken t0).1,
       ApiRes.err 500 "Internal Server Error") := by
    simp [resetPassword, hfindTok, hshort]
  have hemail1 : (forgotPassword db emailIn rawToken t0).1.users.find?
      (fun v => v.email == normalizeEmail emailIn) =
      some { u with passwordResetToken := some (sha256Hex rawToken),
                    passwordResetExpires := some (t0 + 10 * 60 * 1000) } := by
    rw [husers1]
    exact find?_updateWhere_first (fun v => v.id == u.id)
      (fun v => v.email == normalizeEmail emailIn) u
      { u with passwordResetToken := some (sha256Hex rawToken),
               passwordResetExpires := some (t0 + 10 * 60 * 1000) }
      db.users hfind (beq_self_eq_true u.id)
      (by simpa using List.find?_some hfind)
  have hfw2 := forgotPassword_found_eq (forgotPassword db emailIn rawToken t0).1
    emailIn rawToken2 t1
    { u with passwordResetToken := some (sha256Hex rawToken),
             passwordResetExpires := some (t0 + 10 * 60 * 1000) } hemail1
  have husers3 : (forgotPassword (forgotPassword db emailIn rawToken t0).1
      emailIn rawToken2 t1).1.users =
      updateWhere (fun v => v.id == u.id)
        (fun _ => { u with passwordResetToken := some (sha256Hex rawToken2),
                           passwordResetExpires := some (t1 + 10 * 60 * 1000) })
        (forgotPassword db emailIn rawToken t0).1.users := by
    rw [hfw2]
  have h7 : findUser (forgotPassword (forgotPassword db emailIn rawToken t0).1
      emailIn rawToken2 t1).1 u.id =
      some { u with passwordResetToken := some (sha256Hex rawToken2),
                    passwordResetExpires := some (t1 + 10 * 60 * 1000) } := by
    show (forgotPassword (forgotPassword db emailIn rawToken t0).1
        emailIn rawToken2 t1).1.users.find? (fun v => v.id == u.id) = _
    rw [husers3,
      find?_updateWhere_map (fun v => v.id == u.id)
        (fun _ => { u with passwordResetToken := some (sha256Hex rawToken2),
                           passwordResetExpires := some (t1 + 10 * 60 * 1000) })
        (fun x hx => beq_self_eq_true u.id)
        (forgotPassword db emailIn rawToken t0).1.users,
      h2v]
    rfl
  exact ⟨by rw [hfw], h2, by rw [hrp], h4, h5, h6, h8, h7⟩

/-- C4 witness: the lifecycle evaluated on a concrete single-user store;
the token issued at time 0 is consumed at time 1 with a valid password,
rejected at time 600000 (ten minutes), rejected when presented a second
time, and a three-character replacement password fails validation with
500 while leaving the store (and hence the live token) unchanged. -/
theorem C4_reset_token_lifecycle_witness :
    (resetPassword (forgotPassword dbSingle "a@x.com" "tok" 0).1 "tok" "secret2" 1 3).2 =
      ApiRes.ok 200 () ∧
    (resetPassword (forgotPassword dbSingle "a@x.com" "tok" 0).1 "tok" "secret2" 600000 3).2 =
      ApiRes.err 400 "Invalid or expired password reset token" ∧
    (resetPassword (resetPassword (forgotPassword dbSingle "a@x.com" "tok" 0).1
        "tok" "secret2" 1 3).1 "tok" "secret2" 1 3).2 =
      ApiRes.err 400 "Invalid or expired password reset token" ∧
    resetPassword (forgotPassword dbSingle "a@x.com" "tok" 0).1 "tok" "abc" 1 3 =
      ((forgotPassword dbSingle "a@x.com" "tok" 0).1,
       ApiRes.err 500 "Internal Server Error") := by
  have h := C4_reset_token_lifecycle dbSingle "a@x.com" "tok" "tok2" "secret2" "abc"
    0 2 1 600000 3 (mkUser 1 "a@x.com" [])
    (by decide) (by decide) (by decide) (by decide) (by decide) (by decide) (by decide)
  exact ⟨h.2.2.1, h.2.2.2.2.1, h.2.2.2.2.2.1, h.2.2.2.2.2.2.1⟩

/-! ### Claim C5 -/

/-- C5: a login with an unknown email and a login with a known email but a
wrong password produce the identical failure: the same 401 status and the
same message string, so the response does not reveal whether the email is
registered. -/
theorem C5_login_indistinguishable (db : DB) (e1 p1 e2 p2 : String)
    (h1e : e1 ≠ "") (h1p : p1 ≠ "") (h2e : e2 ≠ "") (h2p : p2 ≠ "")
    (hnouser : db.users.find? (fun v => v.email == normalizeEmail e1) = none)
    (u2 : User)
    (huser : db.users.find? (fun v => v.email == normalizeEmail e2) = some u2)
    (hwrong : bcryptCompare p2 u2.password = false) :
    login db (some e1) (some p1) = ApiRes.err 401 "Invalid email or password" ∧
    login db (some e2) (some p2) = ApiRes.err 401 "Invalid email or password" ∧
    login db (some e1) (some p1) = login db (some e2) (some p2) := by
  have hA : login db (some e1) (some p1) =
      ApiRes.err 401 "Invalid email or password" := by
    simp [login, strMissing, h1e, h1p, hnouser]
  have hB : login db (some e2) (some p2) =
      ApiRes.err 401 "Invalid email or password" := by
    simp [login, strMissing, h2e, h2p, huser, hwrong]
  exact ⟨hA, hB, hA.trans hB.symm⟩

/-- C5 witness: against the concrete store, the unknown-email failure and
the wrong-password failure coincide. -/
theorem C5_login_indistinguishable_witness :
    login dbSingle (some "b@x.com") (some "secret1") =
      ApiRes.err 401 "Invalid email or password" ∧
    login dbSingle (some "a@x.com") (some "wrong1") =
      ApiRes.err 401 "Invalid email or password" := by
  have h := C5_login_indistinguishable dbSingle "b@x.com" "secret1" "a@x.com" "wrong1"
    (by decide) (by decide) (by decide) (by decide) (by decide)
    (mkUser 1 "a@x.com" []) (by decide) (by decide)
  exact ⟨h.1, h.2.1⟩

/-! ### Claim C6 -/

/-- Inversion of a successful signup: the created user is the normalized,
bcrypt-hashed document and it is appended to the store. -/
theorem signup_ok_inv (db : DB) (e p n : Option String) (salt aIdx : Nat)
    (db2 : DB) (nu : User)
    (hsucc : signup db e p n salt aIdx = (db2, ApiRes.ok 201 nu)) :
    nu = { id := db.nextUserId, fullName := n.getD "",
           email := normalizeEmail (e.getD ""),
           password := PwString.hashed 10 salt (PwString.raw (p.getD "")),
           bio := "", profilePic := avatarUrl aIdx, nativeLanguage := "",
           learningLanguage := "", location := "", isOnboarded := false,
           friends := [], passwordResetToken := none,
           passwordResetExpires := none } ∧
    db2 = { db with users := db.users ++ [nu],
                    nextUserId := db.nextUserId + 1 } := by
  cases hm : (strMissing e || strMissing p || strMissing n) with
  | true => simp [signup, hm] at hsucc
  | false =>
    by_cases hlen : (p.getD "").length < 6
    · simp [signup, hm, hlen] at hsucc
    · cases hval : emailValid (normalizeEmail (e.getD "")) with
      | false => simp [signup, hm, hlen, hval] at hsucc
      | true =>
        cases hex : db.users.find? (fun v => v.email == normalizeEmail (e.getD "")) with
        | some w => simp [signup, hm, hlen, hval, hex] at hsucc
        | none =>
          simp only [signup, hm, hlen, hval, hex, Bool.false_eq_true, if_false,
            Bool.not_true, preSaveHook, bcryptHash, if_true] at hsucc
          rw [Prod.mk.injEq] at hsucc
          obtain ⟨hdb, hok⟩ := hsucc
          injection hok with hst hv
          refine ⟨hv.symm, ?_⟩
          rw [← hv]
          exact hdb.symm

/-- C6: signup validates in order missing fields, password length, email
pattern on the lowercased and trimmed email, then duplicate email, each
branch failing with a 400 error and leaving the store unchanged; otherwise
it creates a user whose stored email is the normalized one and whose
stored password is the salted bcrypt hash at cost factor 10. -/
theorem C6_signup_spec (db : DB) (e p n : Option String) (salt aIdx : Nat) :
    ((strMissing e || strMissing p || strMissing n) = true →
      signup db e p n salt aIdx = (db, ApiRes.err 400 "All fields are required")) ∧
    ((strMissing e || strMissing p || strMissing n) = false →
      (p.getD "").length < 6 →
      signup db e p n salt aIdx =
        (db, ApiRes.err 400 "Password must be at least 6 characters")) ∧
    ((strMissing e || strMissing p || strMissing n) = false →
      ¬ (p.getD "").length < 6 →
      emailValid (normalizeEmail (e.getD "")) = false →
      signup db e p n salt aIdx = (db, ApiRes.err 400 "Invalid email format")) ∧
    (∀ w, (strMissing e || strMissing p || strMissing n) = false →
      ¬ (p.getD "").length < 6 →
      emailValid (normalizeEmail (e.getD "")) = true →
      db.users.find? (fun v => v.email == normalizeEmail (e.getD "")) = some w →
      signup db e p n salt aIdx =
        (db, ApiRes.err 400 "Email already exists, please use a different one")) ∧
    (∀ db2 nu, signup db e p n salt aIdx = (db2, ApiRes.ok 201 nu) →
      nu.email = normalizeEmail (e.getD "") ∧
      nu.password = PwString.hashed 10 salt (PwString.raw (p.getD "")) ∧
      nu ∈ db2.users) := by
  refine ⟨?_, ?_, ?_, ?_, ?_⟩
  · intro hm
    simp [signup, hm]
  · intro hm hlen
    simp [signup, hm, hlen]
  · intro hm hlen hval
    simp [signup, hm, hlen, hval]
  · intro w hm hlen hval hex
    simp [signup, hm, hlen, hval, hex]
  · intro db2 nu hsucc
    obtain ⟨hnu, hdb⟩ := signup_ok_inv db e p n salt aIdx db2 nu hsucc
    refine ⟨by rw [hnu], by rw [hnu], ?_⟩
    rw [hdb]
    simp

/-- The user document created by the witness signup below. -/
def nuSignup : User :=
  { id := 2, fullName := "Ana", email := "b@x.com",
    password := PwString.hashed 10 0 (PwString.raw "secret2"),
    bio := "", profilePic := "https://i.pravatar.cc/150?u=1",
    nativeLanguage := "", learningLanguage := "", location := "",
    isOnboarded := false, friends := [], passwordResetToken := none,
    passwordResetExpires := none }

/-- The store after the witness signup below. -/
def dbAfterSignup : DB :=
  { users := dbSingle.users ++ [nuSignup], requests := [],
    nextUserId := 3, nextReqId := 0 }

/-- C6 witness: each validation branch and the success branch evaluated on
the concrete store; the duplicate check fires on the email that only
matches after lowercasing and trimming. -/
theorem C6_signup_spec_witness :
    signup dbSingle none (some "secret2") (some "Ana") 0 1 =
      (dbSingle, ApiRes.err 400 "All fields are required") ∧
    signup dbSingle (some "b@x.com") (some "abc") (some "Ana") 0 1 =
      (dbSingle, ApiRes.err 400 "Password must be at least 6 characters") ∧
    signup dbSingle (some "not-an-email") (some "secret2") (some "Ana") 0 1 =
      (dbSingle, ApiRes.err 400 "Invalid email format") ∧
    signup dbSingle (some " A@X.com ") (some "secret2") (some "Ana") 0 1 =
      (dbSingle, ApiRes.err 400 "Email already exists, please use a different one") ∧
    (nuSignup.email = "b@x.com" ∧
      nuSignup.password = PwString.hashed 10 0 (PwString.raw "secret2") ∧
      nuSignup ∈ dbAfterSignup.users) := by
  refine ⟨(C6_signup_spec dbSingle none (some "secret2") (some "Ana") 0 1).1 (by decide),
    (C6_signup_spec dbSingle (some "b@x.com") (some "abc") (some "Ana") 0 1).2.1
      (by decide) (by decide),
    (C6_signup_spec dbSingle (some "not-an-email") (some "secret2") (some "Ana") 0 1).2.2.1
      (by decide) (by decide) (by decide),
    (C6_signup_spec dbSingle (some " A@X.com ") (some "secret2") (some "Ana") 0 1).2.2.2.1
      (mkUser 1 "a@x.com" []) (by decide) (by decide) (by decide) (by decide),
    ?_⟩
  have h := (C6_signup_spec dbSingle (some "b@x.com") (some "secret2") (some "Ana") 0 1).2.2.2.2
    dbAfterSignup nuSignup (by decide)
  exact h

/-! ### Claim C7 -/

/-- C7 evidence: a cookie whose token fails signature verification (wrong
secret) and one that is expired both make protectRoute answer 500 Internal
Server Error, because jwt.verify throws into the catch block; only the
missing-token and deleted-user cases answer 401, and a valid session
resolves to the password-stripped view.  This contradicts the claim (and
the source's own comments), which expect 401 for an invalid or expired
token. -/
theorem C7_invalid_token_is_500 :
    protectRoute dbSingle "server-secret" 1000
      (some { userId := 1, secret := "other-secret", expiresAt := 2000 }) =
      ApiRes.err 500 "Internal Server Error" ∧
    protectRoute dbSingle "server-secret" 3000
      (some { userId := 1, secret := "server-secret", expiresAt := 2000 }) =
      ApiRes.err 500 "Internal Server Error" ∧
    protectRoute dbSingle "server-secret" 1000 none =
      ApiRes.err 401 "Unauthorized - No token provided" ∧
    protectRoute dbSingle "server-secret" 1000
      (some { userId := 9, secret := "server-secret", expiresAt := 2000 }) =
      ApiRes.err 401 "Unauthorized - User not found" ∧
    protectRoute dbSingle "server-secret" 1000
      (some { userId := 1, secret := "server-secret", expiresAt := 2000 }) =
      ApiRes.ok 200 (stripPassword (mkUser 1 "a@x.com" [])) := by
  decide

/-! ### Claim C8 -/

/-- C8 evidence: generateStreamToken swallows a createToken failure and
returns undefined, so getStreamToken answers 200 with an undefined token
instead of the 500 the claim (and spec) require; when createToken works the
token is the one determined by the server secret and the user id. -/
theorem C8_token_failure_is_200 :
    generateStreamToken { apiSecret := "s", createTokenFails := true } 1 = none ∧
    getStreamToken { apiSecret := "s", createTokenFails := true } 1 =
      { status := 200, token := none } ∧
    getStreamToken { apiSecret := "s", createTokenFails := false } 1 =
      { status := 200, token := some "stream.s.1" } := by
  decide

/-! ### Claim C9 -/

/-- C9: the stored credential of a signed-up user is the bcrypt hash and
never the plaintext; the pre-save hook is the identity when the password
path is unmodified; an onboarding update whose body carries no password key
leaves every stored password unchanged; and issuing a reset token leaves
every stored password unchanged. -/
theorem C9_password_hash_stability :
    (∀ db e p n salt aIdx db2 nu,
      signup db e p n salt aIdx = (db2, ApiRes.ok 201 nu) →
      nu.password = PwString.hashed 10 salt (PwString.raw (p.getD "")) ∧
      ∀ q : String, nu.password ≠ PwString.raw q) ∧
    (∀ (u : User) (salt : Nat), preSaveHook false salt u = u) ∧
    (∀ db uid b, b.password = none →
      ∀ v, v ∈ (onboard db uid b).1.users →
        ∃ w, w ∈ db.users ∧ w.id = v.id ∧ v.password = w.password) ∧
    (∀ db e tok t0, ∀ v, v ∈ (forgotPassword db e tok t0).1.users →
        ∃ w, w ∈ db.users ∧ w.id = v.id ∧ v.password = w.password) := by
  refine ⟨?_, ?_, ?_, ?_⟩
  · intro db e p n salt aIdx db2 nu hsucc
    obtain ⟨hnu, hdb⟩ := signup_ok_inv db e p n salt aIdx db2 nu hsucc
    refine ⟨by rw [hnu], ?_⟩
    intro q
    rw [hnu]
    simp
  · intro u salt
    simp [preSaveHook]
  · intro db uid b hbp v hv
    cases hm : (strMissing b.fullName || strMissing b.bio ||
        strMissing b.nativeLanguage || strMissing b.learningLanguage ||
        strMissing b.location) with
    | true =>
      rw [show (onboard db uid b).1 = db by simp [onboard, hm]] at hv
      exact ⟨v, hv, rfl, rfl⟩
    | false =>
      cases hu : findUser db uid with
      | none =>
        rw [show (onboard db uid b).1 = db by simp [onboard, hm, hu]] at hv
        exact ⟨v, hv, rfl, rfl⟩
      | some w =>
        rw [show (onboard db uid b).1.users =
            updateWhere (fun x => x.id == uid) (fun _ => applyOnboardBody w b)
              db.users by simp [onboard, hm, hu]] at hv
        rcases mem_updateWhere _ _ _ _ hv with ⟨x, hx, hpx, hveq⟩ | ⟨hvmem, _⟩
        · refine ⟨w, List.mem_of_find?_eq_some hu, ?_, ?_⟩
          · simp [hveq, applyOnboardBody]
          · rw [hveq]
            simp [applyOnboardBody, hbp]
        · exact ⟨v, hvmem, rfl, rfl⟩
  · intro db e tok t0 v hv
    cases hu : db.users.find? (fun x => x.email == normalizeEmail e) with
    | none =>
      rw [show (forgotPassword db e tok t0).1 = db by
        simp [forgotPassword, hu]] at hv
      exact ⟨v, hv, rfl, rfl⟩
    | some w =>
      rw [show (forgotPassword db e tok t0).1.users =
          updateWhere (fun x => x.id == w.id)
            (fun _ => { w with passwordResetToken := some (sha256Hex tok),
                               passwordResetExpires := some (t0 + 10 * 60 * 1000) })
            db.users from
        by rw [forgotPassword_found_eq db e tok t0 w hu]] at hv
      rcases mem_updateWhere _ _ _ _ hv with ⟨x, hx, hpx, hveq⟩ | ⟨hvmem, _⟩
      · refine ⟨w, List.mem_of_find?_eq_some hu, ?_, ?_⟩
        · rw [hveq]
        · rw [hveq]
      · exact ⟨v, hvmem, rfl, rfl⟩

/-- Onboarding body without a password key, for the witness. -/
def onboardBody1 : OnboardBody :=
  { fullName := some "Ana", bio := some "hello", nativeLanguage := some "en",
    learningLanguage := some "es", location := some "Lima", password := none }

/-- C9 witness: on the concrete store, the signed-up user's stored
credential is the hash (never the plaintext), the hook without a password
change is the identity, and the onboarding update and reset-token issue
preserve the stored password. -/
theorem C9_password_hash_stability_witness :
    (nuSignup.password = PwString.hashed 10 0 (PwString.raw "secret2") ∧
      ∀ q : String, nuSignup.password ≠ PwString.raw q) ∧
    preSaveHook false 5 (mkUser 1 "a@x.com" []) = mkUser 1 "a@x.com" [] ∧
    (∃ w, w ∈ dbSingle.users ∧
      w.id = (applyOnboardBody (mkUser 1 "a@x.com" []) onboardBody1).id ∧
      (applyOnboardBody (mkUser 1 "a@x.com" []) onboardBody1).password = w.password) ∧
    (∃ w, w ∈ dbSingle.users ∧ w.id = 1 ∧
      (preSaveHook false 0 { mkUser 1 "a@x.com" [] with
        passwordResetToken := some (sha256Hex "tok"),
        passwordResetExpires := some 600000 }).password = w.password) := by
  refine ⟨C9_password_hash_stability.1 dbSingle (some "b@x.com") (some "secret2")
      (some "Ana") 0 1 dbAfterSignup nuSignup (by decide),
    C9_password_hash_stability.2.1 (mkUser 1 "a@x.com" []) 5,
    C9_password_hash_stability.2.2.1 dbSingle 1 onboardBody1 rfl
      (applyOnboardBody (mkUser 1 "a@x.com" []) onboardBody1) (by decide),
    ?_⟩
  have h := C9_password_hash_stability.2.2.2 dbSingle "a@x.com" "tok" 0
    (preSaveHook false 0 { mkUser 1 "a@x.com" [] with
      passwordResetToken := some (sha256Hex "tok"),
      passwordResetExpires := some 600000 }) (by decide)
  obtain ⟨w, hw, hid, hpw⟩ := h
  exact ⟨w, hw, by simpa using hid.symm ▸ rfl, hpw⟩

/-! ### Claim C10 -/

/-- C10: the success bodies of signup and login carry the full user
document including the stored bcrypt password hash, while only the session
middleware resolves the identity through the password-stripped view. -/
theorem C10_password_exposed_in_responses :
    (∀ db e p n salt aIdx db2 nu,
      signup db e p n salt aIdx = (db2, ApiRes.ok 201 nu) →
      nu.password = PwString.hashed 10 salt (PwString.raw (p.getD "")) ∧
      nu ∈ db2.users) ∧
    (∀ db e p u2, login db (some e) (some p) = ApiRes.ok 200 u2 →
      ∃ w, db.users.find? (fun v => v.email == normalizeEmail e) = some w ∧
        u2.password = w.password) ∧
    (∀ db secret now cookie su,
      protectRoute db secret now cookie = ApiRes.ok 200 su →
      ∃ uid w, findUser db uid = some w ∧ su = stripPassword w) := by
  refine ⟨?_, ?_, ?_⟩
  · intro db e p n salt aIdx db2 nu hsucc
    obtain ⟨hnu, hdb⟩ := signup_ok_inv db e p n salt aIdx db2 nu hsucc
    refine ⟨by rw [hnu], ?_⟩
    rw [hdb]
    simp
  · intro db e p u2 hsucc
    unfold login at hsucc
    simp only [Option.getD_some] at hsucc
    split at hsucc
    · exact absurd hsucc (by simp)
    · split at hsucc
      · exact absurd hsucc (by simp)
      · rename_i user heq
        split at hsucc
        · injection hsucc with hst hv
          exact ⟨user, heq, by rw [← hv]⟩
        · exact absurd hsucc (by simp)
  · intro db secret now cookie su hsucc
    cases cookie with
    | none => simp [protectRoute] at hsucc
    | some token =>
      cases hver : jwtVerify token secret now with
      | none => simp [protectRoute, hver] at hsucc
      | some uid =>
        cases hu : findUser db uid with
        | none => simp [protectRoute, hver, hu] at hsucc
        | some w =>
          refine ⟨uid, w, hu, ?_⟩
          simp only [protectRoute, hver, hu] at hsucc
          injection hsucc with hst hv
          rw [← hv]

/-- C10 witness: logging in against the concrete store returns the user
document whose password field is the stored bcrypt hash. -/
theorem C10_password_exposed_witness :
    ∃ w, dbSingle.users.find? (fun v => v.email == normalizeEmail "a@x.com") = some w ∧
      (mkUser 1 "a@x.com" []).password = w.password := by
  exact C10_password_exposed_in_responses.2.1 dbSingle "a@x.com" "secret1"
    (mkUser 1 "a@x.com" []) (by decide)

end Tribeo
